import Mathlib

/-!
Verification of the article-processing core of the insurance-news-agent
repository: relevance scoring and topic classification
(src/analyzers/news_analyzer.py, src/utils/text_processor.py),
fingerprint-based deduplication (deduplication_manager.py), and report
aggregation (src/analyzers/report_generator.py).

Python strings are modelled as Lean `String`; Python floats as `ℚ` (all the
arithmetic involved is exact decimal arithmetic, so rationals are a faithful
model for the properties proved here); timestamps as `ℚ` (seconds) for the
scorer and `Int` for the fingerprint store; Python dicts as association
lists with first-match lookup and insert-if-absent append (dict keys are
unique, so first-match lookup agrees with dict lookup).  The md5 digest is
an opaque parameter `md5 : String → String`: every property proved below
holds for an arbitrary digest function.
-/

/-- Python str.lower(): charwise case folding (ASCII approximation of the
unicode tables, which is what every string reaching it exercises). -/
def pyLower (s : String) : String := String.mk (s.data.map Char.toLower)

/-- Python str.strip(): drop leading and trailing whitespace. -/
def pyStrip (s : String) : String :=
  String.mk (((s.data.dropWhile Char.isWhitespace).reverse.dropWhile Char.isWhitespace).reverse)

/-- Model of the Python substring operator `needle in hay` (str.__contains__):
true when `needle.data` occurs contiguously in `hay.data`. -/
def listBeginsWith : List Char → List Char → Bool
  | _, [] => true
  | [], _ :: _ => false
  | c :: cs, d :: ds => (c == d) && listBeginsWith cs ds

/-- `strContainsSub hay needle` models Python `needle in hay` on str. -/
def strContainsSub (hay needle : String) : Bool :=
  (List.range (hay.data.length + 1)).any fun i =>
    listBeginsWith (hay.data.drop i) needle.data

/-- Python regex `\w` wordness (ASCII approximation of the unicode class,
which is what every configured keyword exercises). -/
def isWordChar (c : Char) : Bool := c.isAlphanum || c == '_'

/-- Wordness of the character at index `i`, non-word past either end. -/
def charAtWord (t : List Char) (i : Nat) : Bool :=
  match t.get? i with
  | some c => isWordChar c
  | none => false

/-- Position `p` of `t` is a regex word boundary: the wordness of the
character before `p` differs from the wordness of the character at `p`. -/
def isBoundaryPos (t : List Char) (p : Nat) : Bool :=
  (if p = 0 then false else charAtWord t (p - 1)) != charAtWord t p

/-- Case-insensitive prefix test (re.IGNORECASE, ASCII case folding). -/
def beginsWithCI : List Char → List Char → Bool
  | _, [] => true
  | [], _ :: _ => false
  | c :: cs, d :: ds => (c.toLower == d.toLower) && beginsWithCI cs ds

/-- Model of TextProcessor._compile_keywords + pattern.search: searching
`text` for the compiled pattern `\b<escaped kw>\b` with re.IGNORECASE
(text_processor.py lines 33-48).  A match exists at some start position `i`
when `i` is a word boundary, `kw` matches case-insensitively at `i`, and the
end position is again a word boundary. -/
def wbSearch (text kw : String) : Bool :=
  let t := text.data
  let k := kw.data
  (List.range (t.length + 1)).any fun i =>
    isBoundaryPos t i && beginsWithCI (t.drop i) k && isBoundaryPos t (i + k.length)

/-- NewsArticle (src/models.py lines 47-60), restricted to the fields the
verified operations read.  `relevance_score` is a dataclass field with
default 0.0, so it is total here; `date_published` is `none` when the
attribute holds Python `None`.  Omitted fields (region, content, categories,
language) are never read by the operations below. -/
structure NewsArticle where
  title : String
  url : String
  source : String
  summary : String
  date_published : Option ℚ
  relevance_score : ℚ
  open_insurance_related : Bool
deriving DecidableEq

/-- ArticleFingerprint (deduplication_manager.py lines 18-26). `date_sent`
is an integer timestamp. -/
structure ArticleFingerprint where
  url_hash : String
  title_hash : String
  content_hash : String
  date_sent : Int
  source : String
deriving DecidableEq

/-- The `sent_articles` dict: key → fingerprint, association list with
unique keys; lookup returns the first binding. -/
abbrev FingerprintStore := List (String × ArticleFingerprint)

/-- Python `store[key]` / `key in store` (first matching binding). -/
def storeLookup : FingerprintStore → String → Option ArticleFingerprint
  | [], _ => none
  | (k, fp) :: rest, key => if k = key then some fp else storeLookup rest key

namespace DeduplicationManager

/-- _generate_fingerprint (deduplication_manager.py lines 103-130) with the
md5 digest abstracted and `now` the value of datetime.now(). -/
def generate_fingerprint (md5 : String → String) (now : Int) (article : NewsArticle) :
    ArticleFingerprint :=
  { url_hash := md5 article.url
  , title_hash := md5 (pyStrip (pyLower article.title))
  , content_hash := md5 (pyStrip (pyLower (article.title ++ " " ++ article.summary)))
  , date_sent := now
  , source := article.source }

/-- _is_duplicate (deduplication_manager.py lines 132-159): URL key first,
then title key gated on equal source. -/
def is_duplicate (md5 : String → String) (now : Int) (store : FingerprintStore)
    (article : NewsArticle) : Bool :=
  let fp := generate_fingerprint md5 now article
  let urlKey := "url_" ++ fp.url_hash
  if (storeLookup store urlKey).isSome then
    true
  else
    let titleKey := "title_" ++ fp.title_hash
    match storeLookup store titleKey with
    | some existing => existing.source == article.source
    | none => false

/-- filter_duplicates (deduplication_manager.py lines 161-186): keeps the
non-duplicates in input order; the store is read, never written. -/
def filter_duplicates (md5 : String → String) (now : Int) (store : FingerprintStore)
    (articles : List NewsArticle) : List NewsArticle :=
  if articles.isEmpty then articles
  else
    articles.foldl
      (fun acc article =>
        if is_duplicate md5 now store article then acc else acc ++ [article]) []

/-- The body of mark_as_sent's per-article loop composed over the batch
(deduplication_manager.py lines 200-212): insert the url key if absent,
then the title key if absent. -/
def insertIfAbsent (store : FingerprintStore) (key : String) (fp : ArticleFingerprint) :
    FingerprintStore :=
  if (storeLookup store key).isSome then store else store ++ [(key, fp)]

def mark_as_sent_store (md5 : String → String) (now : Int) (store : FingerprintStore)
    (articles : List NewsArticle) : FingerprintStore :=
  articles.foldl
    (fun st article =>
      let fp := generate_fingerprint md5 now article
      let st1 := insertIfAbsent st ("url_" ++ fp.url_hash) fp
      insertIfAbsent st1 ("title_" ++ fp.title_hash) fp)
    store

/-- Manager state observed by mark_as_sent: the dict plus how many times
_save_sent_articles has run. -/
structure DedupState where
  store : FingerprintStore
  saves : Nat
deriving DecidableEq

/-- mark_as_sent (deduplication_manager.py lines 188-218): early return on
an empty batch, otherwise process every article and then call
_save_sent_articles exactly once. -/
def mark_as_sent (md5 : String → String) (now : Int) (s : DedupState)
    (articles : List NewsArticle) : DedupState :=
  if articles.isEmpty then s
  else
    { store := mark_as_sent_store md5 now s.store articles
    , saves := s.saves + 1 }

/-- Outcome of the underlying file write attempted by _save_sent_articles. -/
inductive WriteOutcome where
  | success : WriteOutcome
  | ioError : String → WriteOutcome
deriving DecidableEq

/-- _save_sent_articles (deduplication_manager.py lines 90-101): the whole
body is wrapped in try/except Exception; an I/O error is logged and the
method falls through to a normal return.  `Except.ok ()` models a normal
return, `Except.error` would model an uncaught exception escaping to the
caller. -/
def save_sent_articles (w : WriteOutcome) : Except String Unit :=
  match w with
  | .success => .ok ()
  | .ioError _ => .ok ()

/-- cleanup_old_entries (deduplication_manager.py lines 220-239): drop
entries with date_sent before the cutoff, then save (once) when anything
was removed.  Returns the new store and the call outcome. -/
def cleanup_old_entries (store : FingerprintStore) (cutoff : Int) (w : WriteOutcome) :
    FingerprintStore × Except String Unit :=
  let kept := store.filter fun kv => !(kv.2.date_sent < cutoff)
  let removedAny := store.any fun kv => kv.2.date_sent < cutoff
  if removedAny then
    match save_sent_articles w with
    | .ok _ => (kept, .ok ())
    | .error e => (kept, .error e)
  else (kept, .ok ())

end DeduplicationManager

/-- The keyword configuration NewsAnalyzer reads from relevance_filters
(news_analyzer.py lines 30-34). -/
structure RelevanceConfig where
  insurance_keywords : List String
  open_insurance_keywords : List String
  high_priority_keywords : List String

namespace NewsAnalyzer

/-- Python `sum(1 for keyword in kws if keyword.lower() in text)`
(news_analyzer.py lines 129-141). -/
def countSubMatches (kws : List String) (text : String) : Nat :=
  (kws.filter fun k => strContainsSub text (pyLower k)).length

/-- NewsAnalyzer.calculate_relevance_score (news_analyzer.py lines 115-151).
`now` is datetime.now() in seconds; `article.date_published` is a timestamp
in seconds, `none` for Python None (which makes `if article.date_published:`
skip the recency block). -/
def calculate_relevance_score (cfg : RelevanceConfig) (now : ℚ) (article : NewsArticle) : ℚ :=
  let text := pyLower (article.title ++ " " ++ article.summary)
  let insurance_matches := countSubMatches cfg.insurance_keywords text
  let open_insurance_matches := countSubMatches cfg.open_insurance_keywords text
  let high_priority_matches := countSubMatches cfg.high_priority_keywords text
  let base : ℚ :=
    min ((insurance_matches : ℚ) * (1 / 10)) (3 / 10)
    + min ((open_insurance_matches : ℚ) * (2 / 10)) (4 / 10)
    + min ((high_priority_matches : ℚ) * (15 / 100)) (3 / 10)
  let score : ℚ :=
    match article.date_published with
    | none => base
    | some t =>
        let hours_old := (now - t) / 3600
        if hours_old < 24 then base + 1 / 10
        else if hours_old < 72 then base + 5 / 100
        else base
  min score 1

/-- Modelled from the spec for comparison in C4: the identical scoring
formula with the recency-bonus block (news_analyzer.py lines 143-149)
removed, i.e. "the same article with no recency bonus". -/
def score_without_recency (cfg : RelevanceConfig) (article : NewsArticle) : ℚ :=
  let text := pyLower (article.title ++ " " ++ article.summary)
  let insurance_matches := countSubMatches cfg.insurance_keywords text
  let open_insurance_matches := countSubMatches cfg.open_insurance_keywords text
  let high_priority_matches := countSubMatches cfg.high_priority_keywords text
  let base : ℚ :=
    min ((insurance_matches : ℚ) * (1 / 10)) (3 / 10)
    + min ((open_insurance_matches : ℚ) * (2 / 10)) (4 / 10)
    + min ((high_priority_matches : ℚ) * (15 / 100)) (3 / 10)
  min base 1

/-- The topic → keyword table of classify_by_topic (news_analyzer.py lines
250-258), in the dict's insertion (= iteration) order. -/
def topic_keywords : List (String × List String) :=
  [ ("regulamentacao", ["regulamentação", "susep", "lei", "normativa", "circular", "resolução"])
  , ("open_insurance", ["open insurance", "seguros abertos", "apis", "compartilhamento"])
  , ("tecnologia", ["digital", "ia", "inteligencia artificial", "blockchain", "insurtech"])
  , ("mercado", ["mercado", "vendas", "crescimento", "participação", "concorrência"])
  , ("produtos", ["seguro auto", "seguro vida", "seguro saude", "previdencia"])
  , ("sinistros", ["sinistro", "indenização", "fraude", "perda"])
  , ("corretores", ["corretor", "corretora", "intermediação", "venda"]) ]

/-- NewsAnalyzer.classify_by_topic (news_analyzer.py lines 236-264): append
each topic having at least one keyword occurring in the lowercased
title+summary; default ['geral'] when nothing matched. -/
def classify_by_topic (article : NewsArticle) : List String :=
  let text := pyLower (article.title ++ " " ++ article.summary)
  let topics :=
    topic_keywords.foldl
      (fun acc p => if p.2.any (fun k => strContainsSub text k) then acc ++ [p.1] else acc) []
  if topics.isEmpty then ["geral"] else topics

/-- Modelled from the spec for comparison in C8 (spec §4.1 step 8): count
keyword matches per topic, return the single topic with the highest count,
first-in-configuration-order on non-zero ties, the default label when every
count is zero. -/
def spec_single_topic (article : NewsArticle) : List String :=
  let text := pyLower (article.title ++ " " ++ article.summary)
  let counts :=
    topic_keywords.map fun p => (p.1, (p.2.filter fun k => strContainsSub text k).length)
  let best := counts.foldl (fun acc p => if p.2 > acc.2 then p else acc) (("", 0) : String × Nat)
  if best.2 = 0 then ["geral"] else [best.1]

/-- The pass at news_analyzer.py lines 72-74 (analyze_articles) and 405-407
(get_top_articles): score an article only when it lacks the attribute. -/
def pyHasattrRelevanceScore (_article : NewsArticle) : Bool := true

/-- hasattr(article, 'relevance_score') is constantly true because the
NewsArticle dataclass declares `relevance_score: float = 0.0`
(models.py line 58): every instance carries the attribute. -/
theorem pyHasattrRelevanceScore_eq_true (a : NewsArticle) :
    pyHasattrRelevanceScore a = true := rfl

def scoring_pass (cfg : RelevanceConfig) (now : ℚ) (articles : List NewsArticle) :
    List NewsArticle :=
  articles.map fun article =>
    if pyHasattrRelevanceScore article then article
    else { article with relevance_score := calculate_relevance_score cfg now article }

end NewsAnalyzer

/-- Python `sorted(articles, key=lambda x: x.relevance_score, reverse=True)`:
stable descending sort.  Elements are inserted left to right; an element
passes over earlier elements of greater-or-equal score, so equal scores keep
input order, exactly as CPython's stable sort with reverse=True. -/
def insertByScoreDesc (a : NewsArticle) : List NewsArticle → List NewsArticle
  | [] => [a]
  | b :: l =>
      if a.relevance_score ≤ b.relevance_score then b :: insertByScoreDesc a l
      else a :: b :: l

def pySortedByScoreDesc (l : List NewsArticle) : List NewsArticle :=
  l.foldl (fun acc a => insertByScoreDesc a acc) []

namespace NewsAnalyzer

/-- NewsAnalyzer.get_top_articles (news_analyzer.py lines 393-414). -/
def get_top_articles (cfg : RelevanceConfig) (now : ℚ) (articles : List NewsArticle)
    (top_n : Nat) : List NewsArticle :=
  (pySortedByScoreDesc (scoring_pass cfg now articles)).take top_n

end NewsAnalyzer

namespace TextProcessor

/-- The keyword configuration TextProcessor compiles (text_processor.py
lines 20-31). -/
structure TPConfig where
  open_insurance_keywords : List String
  high_priority_keywords : List String
  insurance_keywords : List String

/-- `sum(1 for pattern in patterns if pattern.search(text))` over the
compiled word-boundary patterns (text_processor.py lines 124-132). -/
def countWBMatches (kws : List String) (text : String) : Nat :=
  (kws.filter fun k => wbSearch text k).length

/-- TextProcessor.calculate_relevance_score (text_processor.py lines
109-136). -/
def calculate_relevance_score (cfg : TPConfig) (title content : String) : ℚ :=
  let text := pyLower (title ++ " " ++ content)
  let high_priority_matches := countWBMatches cfg.high_priority_keywords text
  let open_insurance_matches := countWBMatches cfg.open_insurance_keywords text
  let insurance_matches := countWBMatches cfg.insurance_keywords text
  let score : ℚ :=
    (high_priority_matches : ℚ) * (3 / 10)
    + (open_insurance_matches : ℚ) * (4 / 10)
    + (insurance_matches : ℚ) * (1 / 10)
  min score 1

/-- The category → keyword table of categorize_article (text_processor.py
lines 173-184), in dict insertion order. -/
def category_keywords : List (String × List String) :=
  [ ("open_insurance", ["open insurance", "open banking", "seguros abertos", "opin"])
  , ("regulation", ["regulamentação", "susep", "lei", "circular", "resolução", "normativa"])
  , ("technology", ["tecnologia", "digital", "api", "insurtech", "inovação"])
  , ("market", ["mercado", "setor", "indústria", "crescimento", "vendas"])
  , ("claims", ["sinistro", "indenização", "claims", "pagamento"])
  , ("auto", ["auto", "veículo", "carro", "automóvel"])
  , ("life", ["vida", "life", "previdência"])
  , ("health", ["saúde", "health", "médico", "hospitalar"])
  , ("property", ["patrimonial", "property", "residencial", "empresarial"])
  , ("reinsurance", ["resseguro", "reinsurance", "ressegurador"]) ]

/-- TextProcessor.categorize_article (text_processor.py lines 158-196): the
inner loop appends the category on its first matching keyword and breaks,
so a category is appended iff any of its keywords occurs; default
['general']. -/
def categorize_article (title content : String) : List String :=
  let text := pyLower (title ++ " " ++ content)
  let categories :=
    category_keywords.foldl
      (fun acc p => if p.2.any (fun k => strContainsSub text k) then acc ++ [p.1] else acc) []
  if categories.isEmpty then ["general"] else categories

end TextProcessor

/-- DailyReport (models.py lines 72-89) restricted to the fields the claims
read, plus the dynamically attached `other_articles`
(report_generator.py line 80). -/
structure DailyReport where
  total_articles : Nat
  top_articles : List NewsArticle
  other_articles : List NewsArticle
  open_insurance_articles : List NewsArticle

namespace ReportGenerator

/-- ReportGenerator._select_top_articles (report_generator.py lines
100-108): stable sort by relevance_score descending, take the first
`limit`.  getattr(x, 'relevance_score', 0.5) = x.relevance_score since the
dataclass field is total. -/
def select_top_articles (articles : List NewsArticle) (limit : Nat) : List NewsArticle :=
  (pySortedByScoreDesc articles).take limit

/-- ReportGenerator.generate_daily_report (report_generator.py lines
37-85), restricted to the fields the claims read.  `other_articles` is the
comprehension `[art for art in articles if art not in top_articles]`,
membership by dataclass equality. -/
def generate_daily_report (articles : List NewsArticle) : DailyReport :=
  if articles.isEmpty then
    { total_articles := 0, top_articles := [], other_articles := []
    , open_insurance_articles := [] }
  else
    let top := select_top_articles articles 15
    { total_articles := articles.length
    , top_articles := top
    , other_articles := articles.filter fun a => decide (a ∉ top)
    , open_insurance_articles := articles.filter fun a => a.open_insurance_related }

end ReportGenerator

/-! Concrete instances used by witnesses and counterexamples. -/

/-- A minimal article: distinct url, chosen relevance score, no date. -/
def mkArt (u : String) (r : ℚ) : NewsArticle :=
  { title := "t", url := u, source := "s", summary := "", date_published := none
  , relevance_score := r, open_insurance_related := false }

/-- An article whose lowercased title+summary contains a keyword of two
different topics ('digital' → tecnologia, 'mercado' → mercado). -/
def mercadoArt : NewsArticle :=
  { title := "Mercado Digital", url := "u", source := "s", summary := ""
  , date_published := none, relevance_score := 0, open_insurance_related := false }

/-- Empty keyword configuration (legal: every list defaults to [] when the
relevance_filters section is absent, news_analyzer.py lines 31-34). -/
def emptyRelevanceConfig : RelevanceConfig :=
  { insurance_keywords := [], open_insurance_keywords := [], high_priority_keywords := [] }

/-- Article A of the spec's URL-duplicate scenario. -/
def artA : NewsArticle :=
  { title := "T1", url := "https://x/1", source := "S1", summary := ""
  , date_published := none, relevance_score := 0, open_insurance_related := false }

/-- Article B: same URL as artA, different title and source. -/
def artB : NewsArticle :=
  { title := "T2", url := "https://x/1", source := "S2", summary := ""
  , date_published := none, relevance_score := 0, open_insurance_related := false }

/-- Article D of the spec's title-duplicate scenario. -/
def artD : NewsArticle :=
  { title := "Breaking", url := "https://x/2", source := "S1", summary := ""
  , date_published := none, relevance_score := 0, open_insurance_related := false }

/-- A fingerprint previously stored under artD's title key. -/
def fpT : ArticleFingerprint :=
  { url_hash := "https://x/0", title_hash := "breaking", content_hash := "breaking"
  , date_sent := 0, source := "S1" }

/-- A store holding only artD's title key (identity digest). -/
def storeC2 : FingerprintStore := [("title_breaking", fpT)]

/-- A fingerprint stored under an unrelated key before a batch commit. -/
def fp0 : ArticleFingerprint :=
  { url_hash := "u0", title_hash := "t0", content_hash := "c0", date_sent := 5, source := "S0" }

/-- A dedup state holding one unrelated key, before any save. -/
def stateC5 : DeduplicationManager.DedupState := { store := [("k0", fp0)], saves := 0 }

/-- Fifteen articles of equal relevance 9, pairwise distinct urls. -/
def hiArts : List NewsArticle :=
  [ mkArt "h01" 9, mkArt "h02" 9, mkArt "h03" 9, mkArt "h04" 9, mkArt "h05" 9
  , mkArt "h06" 9, mkArt "h07" 9, mkArt "h08" 9, mkArt "h09" 9, mkArt "h10" 9
  , mkArt "h11" 9, mkArt "h12" 9, mkArt "h13" 9, mkArt "h14" 9, mkArt "h15" 9 ]

/-- Seventeen articles whose two lowest-scoring members come first, in
ascending score order. -/
def arts17 : List NewsArticle := mkArt "u01" 1 :: mkArt "u02" 2 :: hiArts

/-! Helper lemmas about the fingerprint store. -/

theorem storeLookup_append_some {st : FingerprintStore} {k : String} {fp : ArticleFingerprint}
    (st' : FingerprintStore) (h : storeLookup st k = some fp) :
    storeLookup (st ++ st') k = some fp := by
  induction st with
  | nil => simp [storeLookup] at h
  | cons kv rest ih =>
      obtain ⟨k0, fp0'⟩ := kv
      by_cases hk : k0 = k
      · simp [storeLookup, hk] at h ⊢
        exact h
      · simp [storeLookup, hk] at h ⊢
        exact ih h

theorem storeLookup_append_none {st : FingerprintStore} {k : String}
    (st' : FingerprintStore) (h : storeLookup st k = none) :
    storeLookup (st ++ st') k = storeLookup st' k := by
  induction st with
  | nil => simp [storeLookup]
  | cons kv rest ih =>
      obtain ⟨k0, fp0'⟩ := kv
      by_cases hk : k0 = k
      · simp [storeLookup, hk] at h
      · simp [storeLookup, hk] at h ⊢
        exact ih h

namespace DeduplicationManager

theorem storeLookup_insertIfAbsent_pres {st : FingerprintStore} {k : String}
    {fp : ArticleFingerprint} (k' : String) (fp' : ArticleFingerprint)
    (h : storeLookup st k = some fp) :
    storeLookup (insertIfAbsent st k' fp') k = some fp := by
  unfold insertIfAbsent
  by_cases hp : (storeLookup st k').isSome
  · simp [hp, h]
  · simp [hp]
    exact storeLookup_append_some _ h

theorem storeLookup_insertIfAbsent_self (st : FingerprintStore) (k : String)
    (fp : ArticleFingerprint) :
    (storeLookup (insertIfAbsent st k fp) k).isSome = true := by
  unfold insertIfAbsent
  by_cases hp : (storeLookup st k).isSome
  · simp [hp]
  · simp [hp]
    rw [storeLookup_append_none _ (by
      cases hl : storeLookup st k with
      | none => rfl
      | some v => rw [hl] at hp; simp at hp)]
    simp [storeLookup]

theorem storeLookup_insertIfAbsent_isSome_mono {st : FingerprintStore} {k : String}
    (k' : String) (fp' : ArticleFingerprint) (h : (storeLookup st k).isSome = true) :
    (storeLookup (insertIfAbsent st k' fp') k).isSome = true := by
  cases hl : storeLookup st k with
  | none => rw [hl] at h; simp at h
  | some fp => rw [storeLookup_insertIfAbsent_pres k' fp' hl]; rfl

theorem mark_as_sent_store_pres (md5 : String → String) (now : Int)
    {k : String} {fp : ArticleFingerprint} :
    ∀ (articles : List NewsArticle) (st : FingerprintStore),
      storeLookup st k = some fp →
      storeLookup (mark_as_sent_store md5 now st articles) k = some fp := by
  intro articles
  induction articles with
  | nil => intro st h; simpa [mark_as_sent_store] using h
  | cons a rest ih =>
      intro st h
      have h1 := storeLookup_insertIfAbsent_pres
        ("url_" ++ (generate_fingerprint md5 now a).url_hash)
        (generate_fingerprint md5 now a) h
      have h2 := storeLookup_insertIfAbsent_pres
        ("title_" ++ (generate_fingerprint md5 now a).title_hash)
        (generate_fingerprint md5 now a) h1
      simpa [mark_as_sent_store] using ih _ h2

theorem mark_as_sent_store_isSome_mono (md5 : String → String) (now : Int)
    {k : String} (articles : List NewsArticle) (st : FingerprintStore)
    (h : (storeLookup st k).isSome = true) :
    (storeLookup (mark_as_sent_store md5 now st articles) k).isSome = true := by
  cases hl : storeLookup st k with
  | none => rw [hl] at h; simp at h
  | some fp => rw [mark_as_sent_store_pres md5 now articles st hl]; rfl

theorem mark_as_sent_store_cons (md5 : String → String) (now : Int)
    (st : FingerprintStore) (a : NewsArticle) (rest : List NewsArticle) :
    mark_as_sent_store md5 now st (a :: rest) =
      mark_as_sent_store md5 now
        (insertIfAbsent
          (insertIfAbsent st ("url_" ++ (generate_fingerprint md5 now a).url_hash)
            (generate_fingerprint md5 now a))
          ("title_" ++ (generate_fingerprint md5 now a).title_hash)
          (generate_fingerprint md5 now a))
        rest := rfl

theorem mark_as_sent_store_mem (md5 : String → String) (now : Int) :
    ∀ (articles : List NewsArticle) (st : FingerprintStore) (a : NewsArticle),
      a ∈ articles →
      (storeLookup (mark_as_sent_store md5 now st articles) ("url_" ++ md5 a.url)).isSome = true
      ∧ (storeLookup (mark_as_sent_store md5 now st articles)
          ("title_" ++ md5 (pyStrip (pyLower a.title)))).isSome = true := by
  intro articles
  induction articles with
  | nil => intro st a ha; simp at ha
  | cons b rest ih =>
      intro st a ha
      rcases List.mem_cons.mp ha with hab | har
      · subst hab
        rw [mark_as_sent_store_cons]
        constructor
        · apply mark_as_sent_store_isSome_mono
          apply storeLookup_insertIfAbsent_isSome_mono
          exact storeLookup_insertIfAbsent_self _ _ _
        · apply mark_as_sent_store_isSome_mono
          exact storeLookup_insertIfAbsent_self _ _ _
      · rw [mark_as_sent_store_cons]
        exact ih _ a har

end DeduplicationManager

namespace DeduplicationManager

/-- C1: every article B whose URL equals the URL of an article A previously
committed via mark_as_sent is flagged duplicate by _is_duplicate, whatever
B's title and source: the check fires on the key "url_" ++ md5(B.url)
alone. -/
theorem url_duplicate_after_mark_as_sent (md5 : String → String) (now1 now2 : Int)
    (s : DedupState) (batch : List NewsArticle) (A B : NewsArticle)
    (hA : A ∈ batch) (hurl : B.url = A.url) :
    is_duplicate md5 now2 (mark_as_sent md5 now1 s batch).store B = true := by
  have hne : batch.isEmpty = false := by
    cases batch
    · simp at hA
    · rfl
  have hsome := (mark_as_sent_store_mem md5 now1 batch s.store A hA).1
  simp only [mark_as_sent, hne, Bool.false_eq_true, if_false]
  simp [is_duplicate, generate_fingerprint, hurl, hsome]

/-- Witness for C1: artA marked sent from an empty store; artB shares its
URL but differs in title and source, and is flagged duplicate. -/
theorem url_duplicate_after_mark_as_sent_witness :
    artA ∈ [artA] ∧ artB.url = artA.url
    ∧ is_duplicate (fun x => x) 0
        (mark_as_sent (fun x => x) 0 ⟨[], 0⟩ [artA]).store artB = true :=
  ⟨List.mem_singleton.mpr rfl, rfl,
    url_duplicate_after_mark_as_sent (fun x => x) 0 0 ⟨[], 0⟩ [artA] artA artB
      (List.mem_singleton.mpr rfl) rfl⟩

/-- C2: for an article whose URL key is absent but whose normalized-title
key is present, _is_duplicate flags it iff the stored fingerprint's source
equals the article's source. -/
theorem title_duplicate_iff_same_source (md5 : String → String) (now : Int)
    (store : FingerprintStore) (article : NewsArticle) (fp : ArticleFingerprint)
    (hurl : storeLookup store ("url_" ++ md5 article.url) = none)
    (htitle : storeLookup store ("title_" ++ md5 (pyStrip (pyLower article.title)))
      = some fp) :
    (is_duplicate md5 now store article = true ↔ fp.source = article.source) := by
  simp [is_duplicate, generate_fingerprint, hurl, htitle]

/-- Witness for C2: a store holding only the title key of "Breaking" from
source S1; article artD (same title, new URL, source S1) is flagged iff the
sources agree — and here they do. -/
theorem title_duplicate_iff_same_source_witness :
    storeLookup storeC2 ("url_" ++ artD.url) = none
    ∧ storeLookup storeC2 ("title_" ++ pyStrip (pyLower artD.title)) = some fpT
    ∧ (is_duplicate (fun x => x) 0 storeC2 artD = true ↔ fpT.source = artD.source) :=
  ⟨by decide, by decide,
    title_duplicate_iff_same_source (fun x => x) 0 storeC2 artD fpT (by decide) (by decide)⟩

/-- C5 (amended): mark_as_sent keeps every pre-existing key's fingerprint
unchanged, inserts both derived keys of every batch article, and calls
_save_sent_articles exactly once for a non-empty batch — an empty batch
returns early without persisting. -/
theorem mark_as_sent_frame_insert_save (md5 : String → String) (now : Int)
    (s : DedupState) (batch : List NewsArticle) :
    (∀ k fp, storeLookup s.store k = some fp →
        storeLookup (mark_as_sent md5 now s batch).store k = some fp)
    ∧ (∀ a, a ∈ batch →
        (storeLookup (mark_as_sent md5 now s batch).store ("url_" ++ md5 a.url)).isSome = true
        ∧ (storeLookup (mark_as_sent md5 now s batch).store
            ("title_" ++ md5 (pyStrip (pyLower a.title)))).isSome = true)
    ∧ (mark_as_sent md5 now s batch).saves
        = s.saves + (if batch.isEmpty then 0 else 1) := by
  cases batch with
  | nil =>
      refine ⟨?_, ?_, ?_⟩
      · intro k fp h; simpa [mark_as_sent] using h
      · intro a ha; simp at ha
      · simp [mark_as_sent]
  | cons c rest =>
      refine ⟨?_, ?_, ?_⟩
      · intro k fp h
        simpa [mark_as_sent] using mark_as_sent_store_pres md5 now (c :: rest) s.store h
      · intro a ha
        simpa [mark_as_sent] using mark_as_sent_store_mem md5 now (c :: rest) s.store a ha
      · simp [mark_as_sent]

/-- Counterexample to C5 as stated: committing the empty batch persists the
store zero times, not once. -/
theorem mark_as_sent_empty_batch_no_save_cx :
    (mark_as_sent (fun x => x) 0 ⟨[], 0⟩ []).saves = 0
    ∧ (mark_as_sent (fun x => x) 0 ⟨[], 0⟩ []).saves ≠ 1 := by decide

/-- Witness for C5: one unrelated key survives untouched, artA's url key is
inserted, and exactly one save happens. -/
theorem mark_as_sent_frame_insert_save_witness :
    storeLookup (mark_as_sent (fun x => x) 0 stateC5 [artA]).store "k0" = some fp0
    ∧ (storeLookup (mark_as_sent (fun x => x) 0 stateC5 [artA]).store
        ("url_" ++ artA.url)).isSome = true
    ∧ (mark_as_sent (fun x => x) 0 stateC5 [artA]).saves = 1 := by
  obtain ⟨h1, h2, h3⟩ := mark_as_sent_frame_insert_save (fun x => x) 0 stateC5 [artA]
  exact ⟨h1 "k0" fp0 (by decide), (h2 artA (by simp)).1, by rw [h3]; decide⟩

/-- C7 (amended): a write failure inside _save_sent_articles is caught by
its blanket except-block and logged; the call (and cleanup_old_entries,
which relies on it) returns normally — no error propagates to the
caller. -/
theorem save_failures_swallowed (w : WriteOutcome) (store : FingerprintStore) (cutoff : Int) :
    save_sent_articles w = Except.ok ()
    ∧ (cleanup_old_entries store cutoff w).2 = Except.ok () := by
  constructor
  · cases w <;> rfl
  · unfold cleanup_old_entries save_sent_articles
    cases w <;> (dsimp only; split <;> rfl)

/-- Counterexample to C7 as stated: an I/O error during the store write
does not surface; _save_sent_articles still returns normally. -/
theorem save_io_error_returns_normally_cx :
    save_sent_articles (WriteOutcome.ioError "disk full") = Except.ok () := rfl

theorem filter_duplicates_foldl (md5 : String → String) (now : Int)
    (store : FingerprintStore) :
    ∀ (articles : List NewsArticle) (acc : List NewsArticle),
      articles.foldl
        (fun acc article =>
          if is_duplicate md5 now store article then acc else acc ++ [article]) acc
      = acc ++ articles.filter (fun article => !is_duplicate md5 now store article) := by
  intro articles
  induction articles with
  | nil => intro acc; simp
  | cons a rest ih =>
      intro acc
      by_cases h : is_duplicate md5 now store a
      · simp [h, ih]
      · simp [h, ih]

theorem filter_duplicates_eq_filter (md5 : String → String) (now : Int)
    (store : FingerprintStore) (articles : List NewsArticle) :
    filter_duplicates md5 now store articles
      = articles.filter (fun article => !is_duplicate md5 now store article) := by
  cases articles with
  | nil => rfl
  | cons a rest =>
      have h := filter_duplicates_foldl md5 now store (a :: rest) []
      simpa [filter_duplicates] using h

/-- C9: filter_duplicates consults only the persisted store, so a batch
containing two articles with identical URL, title and source — neither in
the store — keeps both: within-batch duplicates are not detected. -/
theorem within_batch_duplicates_not_detected (md5 : String → String) (now : Int)
    (store : FingerprintStore) (pre mid post : List NewsArticle) (a b : NewsArticle)
    (_hu : a.url = b.url) (_ht : a.title = b.title) (_hs : a.source = b.source)
    (ha : is_duplicate md5 now store a = false)
    (hb : is_duplicate md5 now store b = false) :
    filter_duplicates md5 now store (pre ++ a :: (mid ++ b :: post))
      = pre.filter (fun x => !is_duplicate md5 now store x)
        ++ a :: (mid.filter (fun x => !is_duplicate md5 now store x)
        ++ b :: post.filter (fun x => !is_duplicate md5 now store x)) := by
  rw [filter_duplicates_eq_filter]
  simp [List.filter_append, ha, hb]

/-- Witness for C9: two copies of artA against the empty store both come
back as unique. -/
theorem within_batch_duplicates_not_detected_witness :
    is_duplicate (fun x => x) 0 [] artA = false
    ∧ filter_duplicates (fun x => x) 0 [] [artA, artA] = [artA, artA] := by
  refine ⟨by decide, ?_⟩
  have h := within_batch_duplicates_not_detected (fun x => x) 0 [] [] [] [] artA artA
    rfl rfl rfl (by decide) (by decide)
  simpa using h

end DeduplicationManager

/-! Arithmetic helpers for the score bound. -/

theorem na_score_bounds_aux (i o h : ℕ) (d : Option ℚ) (now : ℚ) :
    0 ≤ min
      (match d with
        | none =>
            min ((i : ℚ) * (1 / 10)) (3 / 10) + min ((o : ℚ) * (2 / 10)) (4 / 10)
              + min ((h : ℚ) * (15 / 100)) (3 / 10)
        | some t =>
            if (now - t) / 3600 < 24 then
              min ((i : ℚ) * (1 / 10)) (3 / 10) + min ((o : ℚ) * (2 / 10)) (4 / 10)
                + min ((h : ℚ) * (15 / 100)) (3 / 10) + 1 / 10
            else if (now - t) / 3600 < 72 then
              min ((i : ℚ) * (1 / 10)) (3 / 10) + min ((o : ℚ) * (2 / 10)) (4 / 10)
                + min ((h : ℚ) * (15 / 100)) (3 / 10) + 5 / 100
            else
              min ((i : ℚ) * (1 / 10)) (3 / 10) + min ((o : ℚ) * (2 / 10)) (4 / 10)
                + min ((h : ℚ) * (15 / 100)) (3 / 10)) 1
    ∧ min
      (match d with
        | none =>
            min ((i : ℚ) * (1 / 10)) (3 / 10) + min ((o : ℚ) * (2 / 10)) (4 / 10)
              + min ((h : ℚ) * (15 / 100)) (3 / 10)
        | some t =>
            if (now - t) / 3600 < 24 then
              min ((i : ℚ) * (1 / 10)) (3 / 10) + min ((o : ℚ) * (2 / 10)) (4 / 10)
                + min ((h : ℚ) * (15 / 100)) (3 / 10) + 1 / 10
            else if (now - t) / 3600 < 72 then
              min ((i : ℚ) * (1 / 10)) (3 / 10) + min ((o : ℚ) * (2 / 10)) (4 / 10)
                + min ((h : ℚ) * (15 / 100)) (3 / 10) + 5 / 100
            else
              min ((i : ℚ) * (1 / 10)) (3 / 10) + min ((o : ℚ) * (2 / 10)) (4 / 10)
                + min ((h : ℚ) * (15 / 100)) (3 / 10)) 1 ≤ 1 := by
  have h1 : (0 : ℚ) ≤ min ((i : ℚ) * (1 / 10)) (3 / 10) :=
    le_min (by positivity) (by norm_num)
  have h2 : (0 : ℚ) ≤ min ((o : ℚ) * (2 / 10)) (4 / 10) :=
    le_min (by positivity) (by norm_num)
  have h3 : (0 : ℚ) ≤ min ((h : ℚ) * (15 / 100)) (3 / 10) :=
    le_min (by positivity) (by norm_num)
  constructor
  · refine le_min ?_ (by norm_num)
    split
    · linarith
    · split_ifs <;> linarith
  · exact min_le_right _ _

theorem tp_score_bounds_aux (hp oi ins : ℕ) :
    0 ≤ min ((hp : ℚ) * (3 / 10) + (oi : ℚ) * (4 / 10) + (ins : ℚ) * (1 / 10)) 1
    ∧ min ((hp : ℚ) * (3 / 10) + (oi : ℚ) * (4 / 10) + (ins : ℚ) * (1 / 10)) 1 ≤ 1 :=
  ⟨le_min (by positivity) (by norm_num), min_le_right _ _⟩

/-- C3: both relevance scorers — NewsAnalyzer.calculate_relevance_score and
TextProcessor.calculate_relevance_score — return a value in [0, 1] for
every article, every timestamp and every keyword configuration. -/
theorem relevance_score_bounded (cfg : RelevanceConfig) (now : ℚ) (article : NewsArticle)
    (tpcfg : TextProcessor.TPConfig) (title content : String) :
    (0 ≤ NewsAnalyzer.calculate_relevance_score cfg now article
      ∧ NewsAnalyzer.calculate_relevance_score cfg now article ≤ 1)
    ∧ (0 ≤ TextProcessor.calculate_relevance_score tpcfg title content
      ∧ TextProcessor.calculate_relevance_score tpcfg title content ≤ 1) :=
  ⟨na_score_bounds_aux
      (NewsAnalyzer.countSubMatches cfg.insurance_keywords
        (pyLower (article.title ++ " " ++ article.summary)))
      (NewsAnalyzer.countSubMatches cfg.open_insurance_keywords
        (pyLower (article.title ++ " " ++ article.summary)))
      (NewsAnalyzer.countSubMatches cfg.high_priority_keywords
        (pyLower (article.title ++ " " ++ article.summary)))
      article.date_published now,
    tp_score_bounds_aux
      (TextProcessor.countWBMatches tpcfg.high_priority_keywords
        (pyLower (title ++ " " ++ content)))
      (TextProcessor.countWBMatches tpcfg.open_insurance_keywords
        (pyLower (title ++ " " ++ content)))
      (TextProcessor.countWBMatches tpcfg.insurance_keywords
        (pyLower (title ++ " " ++ content)))⟩

/-- C4 (amended): an article whose date_published is missing (None) gets no
recency bonus at all — its score equals the score with the recency-bonus
block removed, not 0.10 more. -/
theorem no_recency_bonus_when_date_missing (cfg : RelevanceConfig) (now : ℚ)
    (article : NewsArticle) (h : article.date_published = none) :
    NewsAnalyzer.calculate_relevance_score cfg now article
      = NewsAnalyzer.score_without_recency cfg article := by
  unfold NewsAnalyzer.calculate_relevance_score NewsAnalyzer.score_without_recency
  simp only [h]

/-- Counterexample to C4 as stated: with no keywords configured and no
publication date the score is 0 — not 0.10 more than the bonus-free
score 0. -/
theorem missing_date_scores_no_bonus_cx :
    NewsAnalyzer.calculate_relevance_score emptyRelevanceConfig 0 (mkArt "u" 0) = 0
    ∧ NewsAnalyzer.score_without_recency emptyRelevanceConfig (mkArt "u" 0) = 0
    ∧ NewsAnalyzer.calculate_relevance_score emptyRelevanceConfig 0 (mkArt "u" 0)
        ≠ NewsAnalyzer.score_without_recency emptyRelevanceConfig (mkArt "u" 0) + 1 / 10 := by
  have h1 : NewsAnalyzer.calculate_relevance_score emptyRelevanceConfig 0 (mkArt "u" 0) = 0 := by
    norm_num [NewsAnalyzer.calculate_relevance_score, NewsAnalyzer.countSubMatches,
      mkArt, emptyRelevanceConfig, min_def]
  have h2 : NewsAnalyzer.score_without_recency emptyRelevanceConfig (mkArt "u" 0) = 0 := by
    norm_num [NewsAnalyzer.score_without_recency, NewsAnalyzer.countSubMatches,
      mkArt, emptyRelevanceConfig, min_def]
  exact ⟨h1, h2, by rw [h1, h2]; norm_num⟩

/-- Witness for C4 (amended) at the concrete dateless article. -/
theorem no_recency_bonus_when_date_missing_witness :
    (mkArt "u" 0).date_published = none
    ∧ NewsAnalyzer.calculate_relevance_score emptyRelevanceConfig 0 (mkArt "u" 0)
        = NewsAnalyzer.score_without_recency emptyRelevanceConfig (mkArt "u" 0) :=
  ⟨rfl, no_recency_bonus_when_date_missing emptyRelevanceConfig 0 (mkArt "u" 0) rfl⟩

/-- C10: the hasattr guard in analyze_articles / get_top_articles never
fires (the dataclass field always exists), so the scoring pass is the
identity — calculate_relevance_score is never invoked and every article's
relevance_score is left exactly as it was — and get_top_articles merely
stable-sorts the unmodified input by score and takes the first top_n. -/
theorem scoring_guard_never_fires (cfg : RelevanceConfig) (now : ℚ)
    (articles : List NewsArticle) (top_n : Nat) :
    NewsAnalyzer.scoring_pass cfg now articles = articles
    ∧ NewsAnalyzer.get_top_articles cfg now articles top_n
        = (pySortedByScoreDesc articles).take top_n := by
  have h : NewsAnalyzer.scoring_pass cfg now articles = articles := by
    simp [NewsAnalyzer.scoring_pass, NewsAnalyzer.pyHasattrRelevanceScore]
  exact ⟨h, by simp [NewsAnalyzer.get_top_articles, h]⟩

theorem foldl_append_filter_map (q : String × List String → Bool) :
    ∀ (l : List (String × List String)) (acc : List String),
      l.foldl (fun acc p => if q p then acc ++ [p.1] else acc) acc
        = acc ++ (l.filter q).map Prod.fst := by
  intro l
  induction l with
  | nil => intro acc; simp
  | cons p rest ih =>
      intro acc
      by_cases h : q p
      · simp [h, ih]
      · simp [h, ih]

/-- C8 (amended): classification returns the list of every topic with at
least one keyword occurring in the normalized text, in configuration
iteration order — not a single highest-count topic — and falls back to the
fixed default label ('geral' / 'general') only when no topic matches. -/
theorem classification_lists_all_matching_topics (article : NewsArticle)
    (title content : String) :
    NewsAnalyzer.classify_by_topic article
      = (if ((NewsAnalyzer.topic_keywords.filter fun p =>
            p.2.any fun k => strContainsSub
              (pyLower (article.title ++ " " ++ article.summary)) k).map Prod.fst).isEmpty
         then ["geral"]
         else (NewsAnalyzer.topic_keywords.filter fun p =>
            p.2.any fun k => strContainsSub
              (pyLower (article.title ++ " " ++ article.summary)) k).map Prod.fst)
    ∧ TextProcessor.categorize_article title content
      = (if ((TextProcessor.category_keywords.filter fun p =>
            p.2.any fun k => strContainsSub (pyLower (title ++ " " ++ content)) k).map
              Prod.fst).isEmpty
         then ["general"]
         else (TextProcessor.category_keywords.filter fun p =>
            p.2.any fun k => strContainsSub (pyLower (title ++ " " ++ content)) k).map
              Prod.fst) := by
  constructor
  · simp only [NewsAnalyzer.classify_by_topic, foldl_append_filter_map, List.nil_append]
  · simp only [TextProcessor.categorize_article, foldl_append_filter_map, List.nil_append]

/-- Counterexample to C8 as stated: 'Mercado Digital' matches one keyword
of topic tecnologia and one of topic mercado; the code returns both topics,
while the claimed single-highest-count rule would return only the first. -/
theorem classify_two_topics_cx :
    NewsAnalyzer.classify_by_topic mercadoArt = ["tecnologia", "mercado"]
    ∧ NewsAnalyzer.spec_single_topic mercadoArt = ["tecnologia"]
    ∧ NewsAnalyzer.classify_by_topic mercadoArt ≠ NewsAnalyzer.spec_single_topic mercadoArt :=
  ⟨by decide, by decide, by decide⟩

/-- C6 (amended): for a non-empty input, top_articles is the first 15 of
the stable score-descending sort, and other_articles consists of exactly
those input articles not occurring in top_articles, kept in input order (a
sublist of the input) — it is not re-sorted by relevance. -/
theorem other_articles_complement_in_input_order (articles : List NewsArticle)
    (h : articles ≠ []) :
    (ReportGenerator.generate_daily_report articles).top_articles
      = ReportGenerator.select_top_articles articles 15
    ∧ List.Sublist (ReportGenerator.generate_daily_report articles).other_articles articles
    ∧ ∀ a, a ∈ (ReportGenerator.generate_daily_report articles).other_articles
        ↔ a ∈ articles ∧ a ∉ ReportGenerator.select_top_articles articles 15 := by
  cases articles with
  | nil => exact absurd rfl h
  | cons c rest =>
      refine ⟨rfl, List.filter_sublist _, ?_⟩
      intro a
      simp [ReportGenerator.generate_daily_report]

/-- Counterexample to C6 as stated: with 17 articles whose two lowest
scorers arrive first (scores 1 then 2), other_articles keeps input order
[score 1, score 2] — an ascending pair, so it is not ordered by relevance
score descending. -/
theorem other_articles_not_relevance_sorted_cx :
    (ReportGenerator.generate_daily_report arts17).other_articles
      = [mkArt "u01" 1, mkArt "u02" 2]
    ∧ (mkArt "u01" 1).relevance_score < (mkArt "u02" 2).relevance_score :=
  ⟨by decide, by decide⟩

/-- Witness for C6 (amended) at a singleton input. -/
theorem other_articles_complement_witness :
    ((ReportGenerator.generate_daily_report [mkArt "w" 1]).top_articles
      = ReportGenerator.select_top_articles [mkArt "w" 1] 15)
    ∧ (mkArt "w" 1 ∈ (ReportGenerator.generate_daily_report [mkArt "w" 1]).other_articles
        ↔ mkArt "w" 1 ∈ [mkArt "w" 1]
          ∧ mkArt "w" 1 ∉ ReportGenerator.select_top_articles [mkArt "w" 1] 15) := by
  obtain ⟨h1, _, h3⟩ := other_articles_complement_in_input_order [mkArt "w" 1] (by simp)
  exact ⟨h1, h3 (mkArt "w" 1)⟩
